import Mathlib

/-!
Verification of the fragment-reassembly and event-channel core of
`scopeview.py` (freed-borescope).

The Python code is shallowly embedded: bytes are `Nat`s, byte strings are
`List Nat`, the wall clock is an explicit `Nat` argument (`time.time()`),
and the globals mutated by a function become explicit inputs/outputs.
-/

namespace ScopeView

/-- `FRAME_TIMEOUT` from the source, as an abstract number of clock ticks
(the Python value is 1.0 second; only `elapsed > FRAME_TIMEOUT` matters). -/
def FRAME_TIMEOUT : Nat := 1

/-- The `current_frame` dictionary of the source: frame id, declared total
size, accumulated buffer, next expected fragment index and assembly start
timestamp.  `id`/`size` are `Option` because they start out as `None`. -/
structure FrameState where
  id : Option Nat
  size : Option Nat
  buffer : List Nat
  expected_frag : Nat
  start_time : Option Nat
deriving Repr, DecidableEq

/-- The initial `current_frame` value (source lines 52-58). -/
def initState : FrameState :=
  { id := none, size := none, buffer := [], expected_frag := 0, start_time := none }

/-- A parsed fragment record as returned by `parse_mjpeg_packet`. -/
structure Fragment where
  flag : Nat
  id : Nat
  size : Nat
  frag_index : Nat
  data : List Nat
deriving Repr, DecidableEq

/-- Result of one `process_fragment` call: the updated `current_frame`
state, the returned JPEG bytes (`None` or the frame), and how many times
`frames_dropped` was incremented during the call. -/
structure StepResult where
  state : FrameState
  emitted : Option (List Nat)
  drops : Nat
deriving Repr, DecidableEq

/-- The timeout test `time.time() - frame_state["start_time"] > FRAME_TIMEOUT`,
guarded by `start_time is not None` (source lines 202-203). -/
def timedOut (start_time : Option Nat) (now : Nat) : Bool :=
  match start_time with
  | none => false
  | some t => now - t > FRAME_TIMEOUT

/-- `process_fragment` (source lines 190-234).  The start-flag reset comes
first, then the timeout check, then the ordering check, then the append,
then the completion check on the end flag. -/
def processFragment (s₀ : FrameState) (frag : Fragment) (now : Nat) : StepResult :=
  let s1 : FrameState :=
    if frag.flag = 1 then
      { id := some frag.id, size := some frag.size, buffer := [],
        expected_frag := 0, start_time := some now }
    else s₀
  if timedOut s1.start_time now then
    ⟨{ s1 with buffer := [], expected_frag := 0, start_time := none }, none, 1⟩
  else if frag.frag_index ≠ s1.expected_frag then
    ⟨{ s1 with buffer := [], expected_frag := 0, start_time := none }, none, 1⟩
  else
    let s2 : FrameState :=
      { s1 with buffer := s1.buffer ++ frag.data,
                expected_frag := s1.expected_frag + 1 }
    if frag.flag = 2 then
      if s2.size = some s2.buffer.length then
        ⟨{ s2 with buffer := [], expected_frag := 0, start_time := none },
          some s2.buffer, 0⟩
      else
        ⟨{ s2 with buffer := [], expected_frag := 0, start_time := none }, none, 1⟩
    else ⟨s2, none, 0⟩

/-- Concatenation of the payloads of a timed fragment list, in order. -/
def concatPayloads : List (Nat × Fragment) → List Nat
  | [] => []
  | (_, f) :: rest => f.data ++ concatPayloads rest

/-- Shape of a run of continuation fragments: none is start- or
end-flagged, indices are contiguous from `k`, and none arrives more than
`FRAME_TIMEOUT` after the assembly start `t0`. -/
def midsOk (t0 : Nat) : Nat → List (Nat × Fragment) → Bool
  | _, [] => true
  | k, (t, f) :: rest =>
    !(f.flag == 1) && !(f.flag == 2) && (f.frag_index == k) &&
    !(timedOut (some t0) t) && midsOk t0 (k + 1) rest

/-- `frag.flag == 1` (source line 195). -/
def startFlagged (f : Fragment) : Prop := f.flag = 1

/-- `frag.flag == 2` (source line 220). -/
def endFlagged (f : Fragment) : Prop := f.flag = 2

instance (f : Fragment) : Decidable (startFlagged f) :=
  inferInstanceAs (Decidable (f.flag = 1))

instance (f : Fragment) : Decidable (endFlagged f) :=
  inferInstanceAs (Decidable (f.flag = 2))

/-- Run `process_fragment` over a list of (arrival time, fragment) pairs,
collecting the emitted frames in order and the total drop count. -/
def processAll (s : FrameState) : List (Nat × Fragment) → FrameState × List (List Nat) × Nat
  | [] => (s, [], 0)
  | (t, f) :: rest =>
    let r := processFragment s f t
    let rec' := processAll r.state rest
    (rec'.1,
     (match r.emitted with
      | some j => j :: rec'.2.1
      | none => rec'.2.1),
     r.drops + rec'.2.2)

/-- `int.from_bytes(bs, "little")`. -/
def leBytes (l : List Nat) : Nat :=
  l.foldr (fun b acc => b + 256 * acc) 0

/-- The Python slice `l[a:b]` (for `a ≤ b`). -/
def listSlice (l : List Nat) (a b : Nat) : List Nat :=
  (l.drop a).take (b - a)

/-- `parse_mjpeg_packet` (source lines 164-188): reject datagrams shorter
than the 24-byte header, with `header[0] != 0x66 or header[2] != 0x01`, or
whose payload length differs from the declared fragment size; otherwise
return the parsed fragment record. -/
def parse_mjpeg_packet (data : List Nat) : Option Fragment :=
  if data.length < 24 then none
  else
    let header := data.take 24
    let payload := data.drop 24
    if header.getD 0 0 ≠ 0x66 ∨ header.getD 2 0 ≠ 0x01 then none
    else
      let frame_flag := header.getD 1 0
      let frame_id := header.getD 3 0
      let frame_size := leBytes (listSlice header 4 8)
      let frag_index := leBytes (listSlice header 12 14)
      let frag_size := leBytes (listSlice header 14 16)
      if payload.length ≠ frag_size then none
      else some ⟨frame_flag, frame_id, frame_size, frag_index, payload⟩

/-- One iteration of `main`'s receive path for a datagram (source lines
263-268): a datagram that fails `parse_mjpeg_packet` is skipped
(`continue`) without touching `current_frame` or `frames_dropped`;
otherwise the fragment goes to `process_fragment`. -/
def handleDatagram (s : FrameState) (data : List Nat) (now : Nat) : StepResult :=
  match parse_mjpeg_packet data with
  | none => ⟨s, none, 0⟩
  | some frag => processFragment s frag now

/-- `EVENT_RESPONSE_PREFIX = b"RETCMD"` (source line 43). -/
def eventResponseHead : List Nat := [0x52, 0x45, 0x54, 0x43, 0x4D, 0x44]

/-- `EVENT_RESPONSE_MIDDLE` (source line 44). -/
def eventResponseMiddle : List Nat := [0x00, 0x00, 0x90, 0x00, 0x04, 0x00]

/-- `parse_event_packet` (source lines 98-131).  The global
`_last_server_event_counter` becomes the explicit `baseline` argument, and
the call returns the updated baseline together with the boolean result
(`True` = the caller sets `event_signal`). -/
def parse_event_packet (baseline : Option Nat) (data : List Nat)
    (expected_request_counter : Nat) : Option Nat × Bool :=
  if data.length ≠ 20 then (baseline, false)
  else if listSlice data 0 6 ≠ eventResponseHead then (baseline, false)
  else if leBytes (listSlice data 6 8) ≠ expected_request_counter then (baseline, false)
  else if listSlice data 8 14 ≠ eventResponseMiddle then (baseline, false)
  else
    let server_event_counter := leBytes (listSlice data 18 20)
    match baseline with
    | none => (some server_event_counter, false)
    | some b =>
      if server_event_counter = b then (some b, false)
      else (some server_event_counter, true)

/-- All four validation checks of `parse_event_packet` together. -/
def eventValid (data : List Nat) (expected_request_counter : Nat) : Bool :=
  (data.length == 20) && (listSlice data 0 6 == eventResponseHead) &&
  (leBytes (listSlice data 6 8) == expected_request_counter) &&
  (listSlice data 8 14 == eventResponseMiddle)

/-- The server-side event counter embedded in a response (`data[18:20]`,
little-endian). -/
def serverCounter (data : List Nat) : Nat := leBytes (listSlice data 18 20)

end ScopeView

-- sanity scratch checks (spec example scenario 1)
example :
    (ScopeView.processAll ScopeView.initState
      [(0, ⟨1, 5, 6, 0, [97, 98]⟩), (0, ⟨0, 5, 6, 1, [99, 100]⟩),
       (0, ⟨2, 5, 6, 2, [101, 102]⟩)]).2.1 = [[97, 98, 99, 100, 101, 102]] := by
  decide

example :
    (ScopeView.processAll ScopeView.initState
      [(0, ⟨1, 5, 6, 0, [97, 98]⟩), (0, ⟨2, 5, 6, 1, [101, 102]⟩)]).2.2 = 1 := by
  decide

-- a well-formed datagram: header 24 bytes + 2 payload bytes
example :
    ScopeView.parse_mjpeg_packet
      ([0x66, 1, 0x01, 5, 2, 0, 0, 0, 0, 0, 0, 0, 0, 0, 2, 0,
        0, 0, 0, 0, 0, 0, 0, 0] ++ [10, 20]) =
      some ⟨1, 5, 2, 0, [10, 20]⟩ := by decide

example : ScopeView.parse_mjpeg_packet [0x66, 1] = none := by decide

-- valid event response: RETCMD ++ counter 5 ++ middle ++ 4 reserved ++ server 100
example :
    ScopeView.parse_event_packet none
      ([0x52, 0x45, 0x54, 0x43, 0x4D, 0x44] ++ [5, 0] ++
       [0x00, 0x00, 0x90, 0x00, 0x04, 0x00] ++ [0, 0, 0, 0] ++ [100, 0]) 5 =
      (some 100, false) := by decide

example :
    ScopeView.parse_event_packet (some 100)
      ([0x52, 0x45, 0x54, 0x43, 0x4D, 0x44] ++ [5, 0] ++
       [0x00, 0x00, 0x90, 0x00, 0x04, 0x00] ++ [0, 0, 0, 0] ++ [101, 0]) 5 =
      (some 101, true) := by decide

example :
    ScopeView.parse_event_packet (some 100)
      ([0x52, 0x45, 0x54, 0x43, 0x4D, 0x44] ++ [6, 0] ++
       [0x00, 0x00, 0x90, 0x00, 0x04, 0x00] ++ [0, 0, 0, 0] ++ [101, 0]) 5 =
      (some 100, false) := by decide

namespace ScopeView

/-! ### Single-step characterizations of `processFragment` -/

theorem processFragment_start (s : FrameState) (f : Fragment) (now : Nat)
    (hflag : f.flag = 1) (hidx : f.frag_index = 0) :
    processFragment s f now = ⟨⟨some f.id, some f.size, f.data, 1, some now⟩, none, 0⟩ := by
  simp [processFragment, timedOut, hflag, hidx, FRAME_TIMEOUT]

theorem processFragment_mid (s : FrameState) (f : Fragment) (now : Nat)
    (h1 : f.flag ≠ 1) (h2 : f.flag ≠ 2)
    (hto : timedOut s.start_time now = false)
    (hidx : f.frag_index = s.expected_frag) :
    processFragment s f now =
      ⟨{ s with buffer := s.buffer ++ f.data,
                expected_frag := s.expected_frag + 1 }, none, 0⟩ := by
  simp [processFragment, h1, h2, hto, hidx]

theorem processFragment_end_ok (s : FrameState) (f : Fragment) (now : Nat)
    (h2 : f.flag = 2)
    (hto : timedOut s.start_time now = false)
    (hidx : f.frag_index = s.expected_frag)
    (hsz : s.size = some (s.buffer ++ f.data).length) :
    processFragment s f now =
      ⟨{ s with buffer := [], expected_frag := 0, start_time := none },
        some (s.buffer ++ f.data), 0⟩ := by
  simp [processFragment, h2, hto, hidx, hsz]

theorem processFragment_end_bad (s : FrameState) (f : Fragment) (now : Nat)
    (h2 : f.flag = 2)
    (hto : timedOut s.start_time now = false)
    (hidx : f.frag_index = s.expected_frag)
    (hsz : s.size ≠ some (s.buffer ++ f.data).length) :
    processFragment s f now =
      ⟨{ s with buffer := [], expected_frag := 0, start_time := none }, none, 1⟩ := by
  have hsz' : ¬ s.size = some (s.buffer.length + f.data.length) := by
    simpa [List.length_append] using hsz
  simp [processFragment, h2, hto, hidx, hsz']

theorem processFragment_badIndex (s : FrameState) (f : Fragment) (now : Nat)
    (h1 : f.flag ≠ 1)
    (hidx : f.frag_index ≠ s.expected_frag) :
    processFragment s f now =
      ⟨{ s with buffer := [], expected_frag := 0, start_time := none }, none, 1⟩ := by
  by_cases hto : timedOut s.start_time now <;>
    simp [processFragment, h1, hto, hidx]

theorem processFragment_timeout (s : FrameState) (f : Fragment) (now : Nat)
    (h1 : f.flag ≠ 1)
    (hto : timedOut s.start_time now = true) :
    processFragment s f now =
      ⟨{ s with buffer := [], expected_frag := 0, start_time := none }, none, 1⟩ := by
  simp [processFragment, h1, hto]

theorem drop_or_emit (s : FrameState) (f : Fragment) (now : Nat) :
    (processFragment s f now).emitted = none ∨ (processFragment s f now).drops = 0 := by
  simp only [processFragment]
  repeat' split
  all_goals first
  | exact Or.inl rfl
  | exact Or.inr rfl

end ScopeView

namespace ScopeView

/-! ### Runs of fragments -/

theorem processAll_cons (s : FrameState) (t : Nat) (f : Fragment)
    (rest : List (Nat × Fragment)) :
    processAll s ((t, f) :: rest) =
      ((processAll (processFragment s f t).state rest).1,
       (match (processFragment s f t).emitted with
        | some j => j :: (processAll (processFragment s f t).state rest).2.1
        | none => (processAll (processFragment s f t).state rest).2.1),
       (processFragment s f t).drops +
         (processAll (processFragment s f t).state rest).2.2) := rfl

theorem mids_run (mids : List (Nat × Fragment)) :
    ∀ (s : FrameState) (t0 : Nat),
      s.start_time = some t0 →
      midsOk t0 s.expected_frag mids = true →
      processAll s mids =
        ({ s with buffer := s.buffer ++ concatPayloads mids,
                  expected_frag := s.expected_frag + mids.length }, [], 0) := by
  induction mids with
  | nil =>
    intro s t0 hst h
    simp [processAll, concatPayloads]
  | cons p rest ih =>
    obtain ⟨t, f⟩ := p
    intro s t0 hst h
    simp only [midsOk, Bool.and_eq_true, Bool.not_eq_true', beq_iff_eq,
      beq_eq_false_iff_ne, and_assoc] at h
    obtain ⟨h1, h2, h3, h4, h5⟩ := h
    have hto : timedOut s.start_time t = false := by rw [hst]; exact h4
    have hr := processFragment_mid s f t h1 h2 hto h3
    rw [processAll_cons, hr]
    have hih := ih { s with buffer := s.buffer ++ f.data,
                            expected_frag := s.expected_frag + 1 } t0 hst h5
    rw [hih]
    simp only [concatPayloads, Prod.mk.injEq, FrameState.mk.injEq,
      List.append_assoc, List.length_cons, true_and, and_true]
    omega

theorem processAll_append (l1 l2 : List (Nat × Fragment)) : ∀ s : FrameState,
    processAll s (l1 ++ l2) =
      ((processAll (processAll s l1).1 l2).1,
       (processAll s l1).2.1 ++ (processAll (processAll s l1).1 l2).2.1,
       (processAll s l1).2.2 + (processAll (processAll s l1).1 l2).2.2) := by
  induction l1 with
  | nil => intro s; simp [processAll]
  | cons p rest ih =>
    obtain ⟨t, f⟩ := p
    intro s
    rw [List.cons_append, processAll_cons, processAll_cons, ih]
    cases (processFragment s f t).emitted <;> simp [Nat.add_assoc]

/-- C1: for every sequence made of a start-flagged fragment with index 0,
continuation fragments with contiguous indices `1..n-2`, and an
end-flagged fragment with index `n-1`, whose payload lengths sum to the
declared total size and where no fragment arrives more than the timeout
after assembly start, `process_fragment` applied in order emits exactly
one frame equal to the concatenation of the payloads in index order and
increments the drop counter zero times, from any prior state. -/
theorem reassembly_happy_path (s : FrameState) (f0 fend : Fragment)
    (mids : List (Nat × Fragment)) (t0 tend : Nat)
    (h0flag : f0.flag = 1) (h0idx : f0.frag_index = 0)
    (hmids : midsOk t0 1 mids = true)
    (hendflag : fend.flag = 2) (hendidx : fend.frag_index = mids.length + 1)
    (hendtime : timedOut (some t0) tend = false)
    (hsize : f0.data.length + (concatPayloads mids).length + fend.data.length
              = f0.size) :
    processAll s ((t0, f0) :: (mids ++ [(tend, fend)])) =
      ({ id := some f0.id, size := some f0.size, buffer := [],
         expected_frag := 0, start_time := none },
       [f0.data ++ (concatPayloads mids ++ fend.data)], 0) := by
  rw [processAll_cons, processFragment_start s f0 t0 h0flag h0idx]
  dsimp only
  rw [processAll_append]
  have hmrun := mids_run mids ⟨some f0.id, some f0.size, f0.data, 1, some t0⟩ t0 rfl hmids
  rw [hmrun]
  dsimp only
  have hend := processFragment_end_ok
      ⟨some f0.id, some f0.size, f0.data ++ concatPayloads mids, 1 + mids.length, some t0⟩
      fend tend hendflag hendtime
      (by dsimp only; omega)
      (by simp only [Option.some.injEq, List.length_append]; omega)
  rw [processAll_cons, hend]
  simp [processAll, List.append_assoc]

end ScopeView

namespace ScopeView

/-! ### C2: timeout handling order -/

/-- C2 (amended): start handling precedes the timeout check, so for a
stale assembly a non-start fragment is dropped together with the state
(one drop, nothing emitted, fragment discarded), while a start-flagged
fragment resets the timer first and is never timeout-dropped. -/
theorem timeout_drop_discards_fragment (s : FrameState) (f : Fragment) (now t0 : Nat)
    (hst : s.start_time = some t0) (ht : now - t0 > FRAME_TIMEOUT) :
    (f.flag ≠ 1 →
      processFragment s f now =
        ⟨{ s with buffer := [], expected_frag := 0, start_time := none }, none, 1⟩)
    ∧ (f.flag = 1 → f.frag_index = 0 → (processFragment s f now).drops = 0) := by
  constructor
  · intro h1
    apply processFragment_timeout s f now h1
    rw [hst]
    simpa [timedOut] using ht
  · intro h1 hidx
    rw [processFragment_start s f now h1 hidx]

/-- Counterexample to C2 as stated: with a stale assembly (started at time
0, buffer `[1]`, next index 1) and a non-start fragment of index 0
arriving at time 5000, the code drops the state AND discards the fragment
(buffer stays empty, nothing appended), instead of evaluating the fragment
against the reset state as the claim asserts; and a start-flagged fragment
under the same stale timer is processed with zero drops, so the
drop-then-evaluate behaviour does not occur for start-flagged fragments. -/
theorem timeout_order_counterexample :
    processFragment ⟨some 5, some 100, [1], 1, some 0⟩ ⟨0, 5, 100, 0, [2]⟩ 5000 =
      ⟨⟨some 5, some 100, [], 0, none⟩, none, 1⟩
    ∧ (processFragment ⟨some 5, some 100, [1], 1, some 0⟩ ⟨0, 5, 100, 0, [2]⟩ 5000).state.buffer ≠ [2]
    ∧ (processFragment ⟨some 5, some 100, [1], 1, some 0⟩ ⟨1, 7, 3, 0, [9]⟩ 5000).drops = 0 := by
  decide

/-- Witness for the amended C2 at a concrete stale state and fragment. -/
theorem timeout_drop_discards_fragment_witness :
    processFragment ⟨some 5, some 100, [1], 1, some 0⟩ ⟨0, 5, 100, 1, [2]⟩ 5000 =
      ⟨⟨some 5, some 100, [], 0, none⟩, none, 1⟩ :=
  (timeout_drop_discards_fragment ⟨some 5, some 100, [1], 1, some 0⟩
    ⟨0, 5, 100, 1, [2]⟩ 5000 0 rfl (by decide)).1 (by decide)

/-! ### C3: no fragment is simultaneously start- and end-flagged -/

/-- C3 (amended): the flag byte is tested by equality (`1` = start, `2` =
end), so no fragment is simultaneously start- and end-flagged and the
reset-on-start-then-complete path cannot happen in one call: a
start-flagged fragment never emits a frame in the call that processes it. -/
theorem start_fragment_never_emits (s : FrameState) (f : Fragment) (now : Nat)
    (h : startFlagged f) :
    (processFragment s f now).emitted = none ∧ ¬ endFlagged f := by
  have h1 : f.flag = 1 := h
  constructor
  · by_cases hidx : f.frag_index = 0
    · rw [processFragment_start s f now h1 hidx]
    · simp [processFragment, h1, timedOut, hidx]
  · intro h2
    have h2' : f.flag = 2 := h2
    omega

/-- Counterexample to C3 as stated: for a single fragment whose payload
length (2) equals its declared total size (2), none of the candidate flag
encodings of "start-and-end" makes `process_fragment` emit a frame from
the initial state: flag 1 only buffers, flag 2 is dropped against the
unset size (one drop), and flag 3 is buffered without completing. -/
theorem single_fragment_counterexample :
    (processFragment initState ⟨1, 5, 2, 0, [10, 20]⟩ 0).emitted = none
    ∧ (processFragment initState ⟨2, 5, 2, 0, [10, 20]⟩ 0).emitted = none
    ∧ (processFragment initState ⟨2, 5, 2, 0, [10, 20]⟩ 0).drops = 1
    ∧ (processFragment initState ⟨3, 5, 2, 0, [10, 20]⟩ 0).emitted = none := by
  decide

/-- Witness for the amended C3 at a concrete start-flagged fragment. -/
theorem start_fragment_never_emits_witness :
    (processFragment initState ⟨1, 5, 2, 0, [10, 20]⟩ 0).emitted = none
    ∧ ¬ endFlagged ⟨1, 5, 2, 0, [10, 20]⟩ :=
  start_fragment_never_emits initState ⟨1, 5, 2, 0, [10, 20]⟩ 0 (by decide)

/-! ### C4: out-of-order fragment aborts the frame -/

/-- C4: during an in-progress assembly, a non-start fragment whose index
differs from the expected one clears the buffer, discards the payload,
counts exactly one drop, emits nothing, and leaves a state from which a
subsequent start-flagged fragment is accepted normally. -/
theorem gap_aborts_frame (s : FrameState) (f : Fragment) (now t0 : Nat)
    (hst : s.start_time = some t0)
    (hflag : f.flag ≠ 1)
    (hidx : f.frag_index ≠ s.expected_frag) :
    processFragment s f now =
      ⟨{ s with buffer := [], expected_frag := 0, start_time := none }, none, 1⟩
    ∧ ∀ (g : Fragment) (now2 : Nat), g.flag = 1 → g.frag_index = 0 →
        processFragment { s with buffer := [], expected_frag := 0, start_time := none }
            g now2 =
          ⟨⟨some g.id, some g.size, g.data, 1, some now2⟩, none, 0⟩ := by
  refine ⟨processFragment_badIndex s f now hflag hidx, ?_⟩
  intro g now2 hg hgidx
  exact processFragment_start _ g now2 hg hgidx

/-- Witness for C4: a gap (index 3 instead of 1) aborts a concrete
in-progress frame with exactly one drop and no emission. -/
theorem gap_aborts_frame_witness :
    processFragment ⟨some 5, some 6, [97, 98], 1, some 0⟩ ⟨0, 5, 6, 3, [99]⟩ 0 =
      ⟨⟨some 5, some 6, [], 0, none⟩, none, 1⟩ :=
  (gap_aborts_frame ⟨some 5, some 6, [97, 98], 1, some 0⟩ ⟨0, 5, 6, 3, [99]⟩ 0 0
    rfl (by decide) (by decide)).1

/-! ### C5: size mismatch at the end flag -/

/-- C5: an end-flagged fragment that passes the ordering check but whose
appended buffer length differs from the stored declared size produces no
frame, one drop, and a reset state; and no call of `process_fragment` ever
produces both a frame and a drop. -/
theorem end_size_mismatch_drop (s : FrameState) (f : Fragment) (now : Nat)
    (hflag : f.flag = 2)
    (hidx : f.frag_index = s.expected_frag)
    (hto : timedOut s.start_time now = false)
    (hsz : s.size ≠ some (s.buffer ++ f.data).length) :
    processFragment s f now =
      ⟨{ s with buffer := [], expected_frag := 0, start_time := none }, none, 1⟩
    ∧ ∀ (s' : FrameState) (f' : Fragment) (n' : Nat),
        (processFragment s' f' n').emitted = none ∨ (processFragment s' f' n').drops = 0 :=
  ⟨processFragment_end_bad s f now hflag hto hidx hsz,
   fun s' f' n' => drop_or_emit s' f' n'⟩

/-- Witness for C5: an end fragment completing a buffer of length 3
against a declared size of 10 is dropped without emission. -/
theorem end_size_mismatch_drop_witness :
    processFragment ⟨some 5, some 10, [97, 98], 1, some 0⟩ ⟨2, 5, 10, 1, [99]⟩ 0 =
      ⟨⟨some 5, some 10, [], 0, none⟩, none, 1⟩ :=
  (end_size_mismatch_drop ⟨some 5, some 10, [97, 98], 1, some 0⟩ ⟨2, 5, 10, 1, [99]⟩ 0
    rfl rfl (by decide) (by decide)).1

end ScopeView

namespace ScopeView

/-! ### C1 witness -/

/-- Witness for C1: the spec's example scenario 1, three fragments of a
6-byte frame, emits exactly `"abcdef"` with zero drops. -/
theorem reassembly_happy_path_witness :
    processAll initState
      [(0, ⟨1, 5, 6, 0, [97, 98]⟩), (0, ⟨0, 5, 6, 1, [99, 100]⟩),
       (0, ⟨2, 5, 6, 2, [101, 102]⟩)] =
      (⟨some 5, some 6, [], 0, none⟩, [[97, 98, 99, 100, 101, 102]], 0) :=
  reassembly_happy_path initState ⟨1, 5, 6, 0, [97, 98]⟩ ⟨2, 5, 6, 2, [101, 102]⟩
    [(0, ⟨0, 5, 6, 1, [99, 100]⟩)] 0 0 rfl rfl (by decide) rfl rfl (by decide) (by decide)

/-! ### C6: malformed datagrams are rejected before reassembly -/

theorem take_getD (l : List Nat) (n i : Nat) (h : i < n) :
    (l.take n).getD i 0 = l.getD i 0 := by
  induction l generalizing n i with
  | nil => simp
  | cons a l ih =>
    cases n with
    | zero => omega
    | succ n =>
      cases i with
      | zero => simp
      | succ i => simpa using ih n i (by omega)

theorem slice_take (l : List Nat) (a b n : Nat) (h : b ≤ n) :
    listSlice (l.take n) a b = listSlice l a b := by
  unfold listSlice
  rw [List.drop_take, List.take_take]
  congr 1
  omega

/-- A successfully parsed datagram is at least 24 bytes, has the right
magic and version bytes, and its payload length equals the declared
fragment size. -/
theorem parse_mjpeg_some (data : List Nat) (f : Fragment)
    (h : parse_mjpeg_packet data = some f) :
    24 ≤ data.length ∧ data.getD 0 0 = 0x66 ∧ data.getD 2 0 = 0x01 ∧
    (data.drop 24).length = leBytes (listSlice data 14 16) := by
  unfold parse_mjpeg_packet at h
  split at h
  · exact absurd h (by simp)
  · next h1 =>
    dsimp only at h
    split at h
    · exact absurd h (by simp)
    · next h2 =>
      split at h
      · exact absurd h (by simp)
      · next h3 =>
        push_neg at h2
        refine ⟨by omega, ?_, ?_, ?_⟩
        · rw [← take_getD data 24 0 (by omega)]; exact h2.1
        · rw [← take_getD data 24 2 (by omega)]; exact h2.2
        · rw [← slice_take data 14 16 24 (by omega)]
          simpa using h3

/-- C6: a datagram shorter than the 24-byte header, or with a wrong magic
or version byte, or whose payload length differs from the declared
fragment length, makes `parse_mjpeg_packet` return nothing, and the main
loop then leaves the assembly state and drop counter untouched. -/
theorem malformed_datagram_rejected (s : FrameState) (data : List Nat) (now : Nat)
    (h : data.length < 24 ∨ data.getD 0 0 ≠ 0x66 ∨ data.getD 2 0 ≠ 0x01 ∨
         (data.drop 24).length ≠ leBytes (listSlice data 14 16)) :
    parse_mjpeg_packet data = none ∧ handleDatagram s data now = ⟨s, none, 0⟩ := by
  have hp : parse_mjpeg_packet data = none := by
    cases hcase : parse_mjpeg_packet data with
    | none => rfl
    | some f =>
      have hc := parse_mjpeg_some data f hcase
      rcases h with h | h | h | h
      · omega
      · exact absurd hc.2.1 h
      · exact absurd hc.2.2.1 h
      · exact absurd hc.2.2.2 h
  exact ⟨hp, by simp [handleDatagram, hp]⟩

/-- Witness for C6: the empty datagram is rejected and changes nothing. -/
theorem malformed_datagram_rejected_witness :
    parse_mjpeg_packet [] = none ∧
    handleDatagram initState [] 0 = ⟨initState, none, 0⟩ :=
  malformed_datagram_rejected initState [] 0 (Or.inl (by decide))

end ScopeView

namespace ScopeView

/-! ### C7: event baseline and edge detection -/

/-- C7: on a valid event response, a missing baseline is established from
the server counter without signalling; a valid response whose server
counter differs from the baseline updates the baseline and signals
(returns `true`) exactly for that response; a valid response whose server
counter equals the baseline changes nothing and does not signal. -/
theorem event_baseline_edge (data : List Nat) (expected b : Nat)
    (hv : eventValid data expected = true) :
    parse_event_packet none data expected = (some (serverCounter data), false)
    ∧ (serverCounter data ≠ b →
        parse_event_packet (some b) data expected = (some (serverCounter data), true))
    ∧ parse_event_packet (some (serverCounter data)) data expected =
        (some (serverCounter data), false) := by
  simp only [eventValid, Bool.and_eq_true, beq_iff_eq, and_assoc] at hv
  obtain ⟨h1, h2, h3, h4⟩ := hv
  refine ⟨?_, ?_, ?_⟩
  · simp [parse_event_packet, h1, h2, h3, h4, serverCounter]
  · intro hne
    have hne' : ¬ leBytes (listSlice data 18 20) = b := hne
    simp [parse_event_packet, h1, h2, h3, h4, serverCounter, hne']
  · simp [parse_event_packet, h1, h2, h3, h4, serverCounter]

/-- Witness for C7 on a concrete valid 20-byte response (echoed counter 5,
server counter 100) against a baseline of 101. -/
theorem event_baseline_edge_witness :
    parse_event_packet none
        [0x52, 0x45, 0x54, 0x43, 0x4D, 0x44, 5, 0,
         0x00, 0x00, 0x90, 0x00, 0x04, 0x00, 0, 0, 0, 0, 100, 0] 5 =
      (some 100, false)
    ∧ (100 ≠ 101 →
        parse_event_packet (some 101)
            [0x52, 0x45, 0x54, 0x43, 0x4D, 0x44, 5, 0,
             0x00, 0x00, 0x90, 0x00, 0x04, 0x00, 0, 0, 0, 0, 100, 0] 5 =
          (some 100, true))
    ∧ parse_event_packet (some 100)
          [0x52, 0x45, 0x54, 0x43, 0x4D, 0x44, 5, 0,
           0x00, 0x00, 0x90, 0x00, 0x04, 0x00, 0, 0, 0, 0, 100, 0] 5 =
        (some 100, false) :=
  event_baseline_edge
    [0x52, 0x45, 0x54, 0x43, 0x4D, 0x44, 5, 0,
     0x00, 0x00, 0x90, 0x00, 0x04, 0x00, 0, 0, 0, 0, 100, 0] 5 101 (by decide)

/-! ### C8: invalid event responses are ignored -/

/-- If any of the four validation checks fails, `parse_event_packet`
returns the baseline unchanged and does not signal. -/
theorem invalid_parse (data : List Nat) (expected : Nat) (b : Option Nat)
    (hv : eventValid data expected = false) :
    parse_event_packet b data expected = (b, false) := by
  by_cases h1 : data.length = 20
  · by_cases h2 : listSlice data 0 6 = eventResponseHead
    · by_cases h3 : leBytes (listSlice data 6 8) = expected
      · by_cases h4 : listSlice data 8 14 = eventResponseMiddle
        · exfalso
          simp [eventValid, h1, h2, h3, h4] at hv
        · simp [parse_event_packet, h1, h2, h3, h4]
      · simp [parse_event_packet, h1, h2, h3]
    · simp [parse_event_packet, h1, h2]
  · simp [parse_event_packet, h1]

/-- C8: a response failing any validation check (length, ASCII head,
echoed request counter, fixed middle bytes) is silently discarded: it
reports no event and leaves the baseline unchanged; conversely a response
is acted upon (returns `true`) only when all checks hold. -/
theorem invalid_event_ignored (data : List Nat) (expected : Nat) (b : Option Nat)
    (hv : eventValid data expected = false) :
    parse_event_packet b data expected = (b, false)
    ∧ ∀ (d : List Nat) (e : Nat) (b' : Option Nat),
        (parse_event_packet b' d e).2 = true → eventValid d e = true := by
  refine ⟨invalid_parse data expected b hv, ?_⟩
  intro d e b' h
  by_contra hne
  have hfalse : eventValid d e = false := by
    simpa using hne
  rw [invalid_parse d e b' hfalse] at h
  simp at h

/-- Witness for C8: a 20-byte response echoing counter 6 instead of the
expected 5 is ignored and the baseline 100 is untouched. -/
theorem invalid_event_ignored_witness :
    parse_event_packet (some 100)
        [0x52, 0x45, 0x54, 0x43, 0x4D, 0x44, 6, 0,
         0x00, 0x00, 0x90, 0x00, 0x04, 0x00, 0, 0, 0, 0, 101, 0] 5 =
      (some 100, false) :=
  (invalid_event_ignored
    [0x52, 0x45, 0x54, 0x43, 0x4D, 0x44, 6, 0,
     0x00, 0x00, 0x90, 0x00, 0x04, 0x00, 0, 0, 0, 0, 101, 0] 5 (some 100)
    (by decide)).1

/-! ### C9: the frame id of non-start fragments is never consulted -/

/-- C9: for a non-start fragment, `process_fragment` never reads the
fragment's frame id, so the result is identical under any id; a
continuation with the expected index is appended, and an end fragment
with the expected index and matching size is emitted, regardless of id. -/
theorem frame_id_not_validated (s : FrameState) (f : Fragment) (now j : Nat)
    (hflag : f.flag ≠ 1) :
    processFragment s { f with id := j } now = processFragment s f now
    ∧ (f.flag ≠ 2 → timedOut s.start_time now = false →
        f.frag_index = s.expected_frag →
        processFragment s f now =
          ⟨{ s with buffer := s.buffer ++ f.data,
                    expected_frag := s.expected_frag + 1 }, none, 0⟩)
    ∧ (f.flag = 2 → timedOut s.start_time now = false →
        f.frag_index = s.expected_frag →
        s.size = some (s.buffer ++ f.data).length →
        (processFragment s f now).emitted = some (s.buffer ++ f.data)) := by
  refine ⟨?_, ?_, ?_⟩
  · simp [processFragment, hflag]
  · intro h2 hto hidx
    exact processFragment_mid s f now hflag h2 hto hidx
  · intro h2 hto hidx hsz
    rw [processFragment_end_ok s f now h2 hto hidx hsz]

/-- Witness for C9: a continuation fragment carrying frame id 77 is
processed identically to the same fragment carrying frame id 5, during an
assembly that was started with frame id 5. -/
theorem frame_id_not_validated_witness :
    processFragment ⟨some 5, some 6, [97], 1, some 0⟩ ⟨0, 77, 6, 1, [98]⟩ 0 =
      processFragment ⟨some 5, some 6, [97], 1, some 0⟩ ⟨0, 5, 6, 1, [98]⟩ 0 :=
  (frame_id_not_validated ⟨some 5, some 6, [97], 1, some 0⟩ ⟨0, 5, 6, 1, [98]⟩ 0 77
    (by decide)).1

/-! ### C10: a non-start fragment of index 0 is accepted in the idle state -/

/-- C10: in an idle state (expected index 0, empty buffer, no start time),
a non-start fragment with index 0 is not rejected: its payload is appended
to the empty buffer and the expected index advances, with the stale frame
id and declared size left as they were; if it is end-flagged and its
payload length differs from the stale declared size, the drop counter is
incremented even though no frame had been started. -/
theorem idle_nonstart_accepted (s : FrameState) (f : Fragment) (now : Nat)
    (hb : s.buffer = []) (he : s.expected_frag = 0) (hst : s.start_time = none)
    (hflag : f.flag ≠ 1) (hidx : f.frag_index = 0) :
    (f.flag ≠ 2 →
      processFragment s f now =
        ⟨{ s with buffer := f.data, expected_frag := 1 }, none, 0⟩)
    ∧ (f.flag = 2 → s.size ≠ some f.data.length →
        processFragment s f now = ⟨s, none, 1⟩) := by
  obtain ⟨sid, ssz, sbuf, sexp, sst⟩ := s
  dsimp only at hb he hst
  subst hb he hst
  have hto : timedOut (none : Option Nat) now = false := rfl
  constructor
  · intro h2
    have hm := processFragment_mid ⟨sid, ssz, [], 0, none⟩ f now hflag h2 hto hidx
    simpa using hm
  · intro h2 hsz
    have hm := processFragment_end_bad ⟨sid, ssz, [], 0, none⟩ f now h2 hto hidx
      (by simpa using hsz)
    simpa using hm

/-- Witness for C10: from the initial state (stale size `None`), an
end-flagged fragment with index 0 is accepted into the buffer and then
dropped against the unset size, counting one drop. -/
theorem idle_nonstart_accepted_witness :
    processFragment initState ⟨2, 5, 4, 0, [1, 2]⟩ 0 = ⟨initState, none, 1⟩ :=
  (idle_nonstart_accepted initState ⟨2, 5, 4, 0, [1, 2]⟩ 0 rfl rfl rfl
    (by decide) rfl).2 rfl (by decide)

end ScopeView
